import Mathlib

/-
Verification development for the Antrea agent's node-local dataplane control
core: the network-policy packet-in pipeline (dispatch, audit logging, reject
synthesis), the HTTP network-policy query handler, and the connection-tracking
store / flow-record builder.

Shallow embedding conventions:
  * Go machine integers become `Nat`, with an explicit `% 2 ^ w` wherever the
    source can overflow (TCP sequence arithmetic is 32-bit).
  * Fallible Go functions returning `(..., error)` become `Except String ...`
    or `Option ...`.
  * Byte slices become `List Nat`.
  * External collaborators (OVS register matchers, the interface store, the
    openflow client) are modelled as explicit function parameters, so every
    code path of the embedded functions is a pure computation over them.
-/

namespace AntreaCore

/-! ## Register matchers and register decoding (packet-in pipeline) -/

/-- A packet-in's OVS match list, abstracted as a map from a register number to
the data of the corresponding `NXM_NX_REG` match field.  `none` covers both a
missing match field and a match value that is not an `NXRegister` (the case the
source reports as "register value cannot be retrieved"). -/
def Matchers : Type := Nat → Option Nat

/-- Embeds `getMatchRegField`: look the register match field up by number. -/
def getMatchRegField (matchers : Matchers) (regNum : Nat) : Option Nat :=
  matchers regNum

/-- Embeds `ofctrl.GetUint32ValueWithRange`: extract the bit range starting at
`ofs`, `nBits` wide, out of a 32-bit register value. -/
def getUint32ValueWithRange (data : Nat) (ofs nBits : Nat) : Nat :=
  (data >>> ofs) % 2 ^ nBits

/-- Embeds `getInfoInReg`: unload the data stored in a match field, optionally
restricted to a bit range. -/
def getInfoInReg (regMatch : Option Nat) (rng : Option (Nat × Nat)) :
    Except String Nat :=
  match regMatch with
  | none => .error "register value cannot be retrieved"
  | some data =>
    match rng with
    | some r => .ok (getUint32ValueWithRange data r.1 r.2)
    | none => .ok data

/-- Modelled from the spec: the register number that carries the packet-in
"custom reason" bitmask (`openflow.CustomReasonMarkReg`; the
`pkg/agent/openflow` constants are not part of the sources).  Its concrete
value is irrelevant to every property below. -/
def CustomReasonMarkReg : Nat := 0

/-- Modelled from the spec: the bit range of the custom-reason bitmask inside
its register (`openflow.CustomReasonMarkRange`), as (offset, width). -/
def CustomReasonMarkRange : Nat × Nat := (24, 4)

/-- Modelled from the spec: the logging reason bit
(`openflow.CustomReasonLogging`).  The spec requires the logging and reject
bits to be independent, so they are distinct single bits. -/
def CustomReasonLogging : Nat := 1

/-- Modelled from the spec: the reject reason bit
(`openflow.CustomReasonReject`). -/
def CustomReasonReject : Nat := 2

/-- A packet-in event, reduced to the only parts `HandlePacketIn` itself
inspects: its match list.  A `nil` `*ofctrl.PacketIn` is `none` at the use
site. -/
structure PacketIn where
  matchers : Matchers

/-- The observable outcome of one `HandlePacketIn` call: whether the logging
handler (`logPacket`) and the reject handler (`rejectRequest`) were invoked,
and the returned error value. -/
structure PacketInOutcome where
  invokedLog : Bool
  invokedReject : Bool
  result : Except String Unit

/-- Embeds `Controller.HandlePacketIn`.  The two handlers are embedded
separately (`logPacket`, `rejectRequest` below); since the dispatch logic
depends only on their error results on this packet, they enter here as the
`Except` values `logPacketResult` and `rejectRequestResult`, and the outcome
records which of them was invoked. -/
def HandlePacketIn (logPacketResult rejectRequestResult : Except String Unit)
    (pktIn : Option PacketIn) : PacketInOutcome :=
  match pktIn with
  | none => ⟨false, false, .error "empty packetin for Antrea Policy"⟩
  | some p =>
    match getInfoInReg (getMatchRegField p.matchers CustomReasonMarkReg)
        (some CustomReasonMarkRange) with
    | .error e =>
      ⟨false, false,
        .error ("received error while unloading customReason from reg: " ++ e)⟩
    | .ok customReasons =>
      if customReasons &&& CustomReasonLogging = CustomReasonLogging then
        match logPacketResult with
        | .error e => ⟨true, false, .error e⟩
        | .ok _ =>
          if customReasons &&& CustomReasonReject = CustomReasonReject then
            match rejectRequestResult with
            | .error e => ⟨true, true, .error e⟩
            | .ok _ => ⟨true, true, .ok ()⟩
          else ⟨true, false, .ok ()⟩
      else
        if customReasons &&& CustomReasonReject = CustomReasonReject then
          match rejectRequestResult with
          | .error e => ⟨false, true, .error e⟩
          | .ok _ => ⟨false, true, .ok ()⟩
        else ⟨false, false, .ok ()⟩

/-! ## Reject synthesis (`rejectRequest` and its helpers) -/

/-- Protocol-relevant constants of the source file. -/
def IPv4HdrLen : Nat := 20

/-- IPv6 base header length (`IPv6HdrLen`). -/
def IPv6HdrLen : Nat := 40

/-- Length of the zeroed unused header of an ICMP error message
(`ICMPUnusedHdrLen`). -/
def ICMPUnusedHdrLen : Nat := 4

/-- Embeds `protocol.Type_TCP`: the IP protocol number of TCP. -/
def TypeTCP : Nat := 6

/-- The Ethertype of the intercepted packet, as the three cases
`rejectRequest`'s switch distinguishes. -/
inductive EtherTypeKind
  | ipv4
  | ipv6
  | other
  deriving DecidableEq

/-- The TCP header fields `getTCPHeaderData` reads out of the intercepted
segment (`protocol.TCP` after `UnmarshalBinary`).  All fields are machine
integers: ports 16-bit, the sequence number 32-bit. -/
structure TCPHeader where
  portSrc : Nat
  portDst : Nat
  seqNum : Nat
  deriving DecidableEq

/-- The intercepted packet as seen by `rejectRequest`: Ethernet addresses,
the IP header fields the switch reads, the marshalled bytes of the whole IP
packet (`pktIn.Data.Data.MarshalBinary()`), and the result of re-parsing the
IP payload as a TCP header (`none` when buffering or `UnmarshalBinary`
fails). -/
structure IPPacketIn where
  hwSrc : String
  hwDst : String
  etherType : EtherTypeKind
  nwSrc : String
  nwDst : String
  protocol : Nat
  marshaled : List Nat
  tcpPayload : Option TCPHeader

/-- Embeds `getTCPHeaderData`: swap the intercepted ports, zero the sequence
number, and acknowledge the intercepted sequence number + 1 (32-bit
arithmetic).  Marshal/unmarshal failures of the source are the `tcpPayload =
none` case. -/
def getTCPHeaderData (ipPkt : IPPacketIn) :
    Except String (Nat × Nat × Nat × Nat) :=
  match ipPkt.tcpPayload with
  | none => .error "failed to unmarshal TCP data"
  | some tcpIn =>
    .ok (tcpIn.portDst, tcpIn.portSrc, 0, (tcpIn.seqNum + 1) % 2 ^ 32)

/-- The base packet-out produced by `getBasePacketOutBuilder` via
`GenBasePacketOutBuilder`: src and dst MAC, IP and OpenFlow port. -/
structure PacketOut where
  srcMAC : String
  dstMAC : String
  srcIP : String
  dstIP : String
  srcOFPort : Nat
  dstOFPort : Nat
  deriving DecidableEq

/-- The interface store's `GetInterfaceByIP`, reduced to the only field the
pipeline consumes: the OpenFlow port of the interface owning an IP, or `none`
when the store has no interface for it. -/
def IfaceStore : Type := String → Option Nat

/-- Embeds `Controller.getBasePacketOutBuilder`: resolve both endpoints' local
OpenFlow ports by IP; fail when either lookup misses. -/
def getBasePacketOutBuilder (ifaceStore : IfaceStore)
    (srcMAC dstMAC srcIP dstIP : String) : Except String PacketOut :=
  match ifaceStore srcIP, ifaceStore dstIP with
  | some sPort, some dPort => .ok ⟨srcMAC, dstMAC, srcIP, dstIP, sPort, dPort⟩
  | _, _ => .error "couldn't find Pod config by IP"

/-- The src/dst IP, protocol and IP-header length `rejectRequest` extracts in
its Ethertype switch (source and destination already swapped toward the
original sender; zero values when the Ethertype is neither IPv4 nor IPv6). -/
structure RejectHeaderFields where
  srcIP : String
  dstIP : String
  prot : Nat
  ipHdrLen : Nat
  deriving DecidableEq

/-- The Ethertype switch at the top of `rejectRequest`. -/
def rejectHeaderFields (p : IPPacketIn) : RejectHeaderFields :=
  match p.etherType with
  | .ipv4 => ⟨p.nwDst, p.nwSrc, p.protocol, IPv4HdrLen⟩
  | .ipv6 => ⟨p.nwDst, p.nwSrc, p.protocol, IPv6HdrLen⟩
  | .other => ⟨"", "", 0, 0⟩

/-- The ICMP payload built in `rejectRequest`'s default branch:
`make([]byte, ICMPUnusedHdrLen+ipHdrLen+8)` zero-filled, then
`ipHdr[:ipHdrLen+8]` copied in after the 4 zeroed unused-header bytes.
`none` is the source's out-of-range slice panic when the marshalled packet is
shorter than `ipHdrLen+8`. -/
def icmpRejectData (ipHdrLen : Nat) (ipHdr : List Nat) : Option (List Nat) :=
  if ipHdrLen + 8 ≤ ipHdr.length then
    some (List.replicate ICMPUnusedHdrLen 0 ++ ipHdr.take (ipHdrLen + 8))
  else none

/-- The packet the reject handler hands to the openflow client: either
`SendTCPReject` with the synthesized TCP fields or `SendICMPReject` with the
synthesized ICMP payload. -/
inductive SentPacket
  | tcpReject (builder : PacketOut) (srcPort dstPort seqNum ackNum : Nat)
  | icmpReject (builder : PacketOut) (icmpData : List Nat)
  deriving DecidableEq

/-- Embeds `Controller.rejectRequest`: swap the L2 and L3 addresses toward the
original sender, resolve the base packet-out, then branch on the IP protocol:
TCP gets a reset synthesized by `getTCPHeaderData`, every other protocol an
ICMP administratively-prohibited message carrying `icmpRejectData`. -/
def rejectRequest (ifaceStore : IfaceStore) (p : IPPacketIn) :
    Except String SentPacket :=
  let srcMAC := p.hwDst
  let dstMAC := p.hwSrc
  let hf := rejectHeaderFields p
  match getBasePacketOutBuilder ifaceStore srcMAC dstMAC hf.srcIP hf.dstIP with
  | .error e => .error e
  | .ok pktOutBuilder =>
    if hf.prot = TypeTCP then
      match getTCPHeaderData p with
      | .error e => .error e
      | .ok (tcpSrcPort, tcpDstPort, tcpSeqNum, tcpAckNum) =>
        .ok (.tcpReject pktOutBuilder tcpSrcPort tcpDstPort tcpSeqNum tcpAckNum)
    else
      match icmpRejectData hf.ipHdrLen p.marshaled with
      | none => .error "slice bounds out of range"
      | some icmpData => .ok (.icmpReject pktOutBuilder icmpData)

/-! ## Audit logging (`logPacket` and its helpers) -/

/-- Modelled from the spec: the disposition value meaning Allow
(`openflow.DispositionAllow`; the `pkg/agent/openflow` constants are not part
of the sources). -/
def DispositionAllow : Nat := 1

/-- Modelled from the spec: the register carrying the disposition mark
(`openflow.DispositionMarkReg`). -/
def DispositionMarkReg : Nat := 0

/-- Modelled from the spec: the bit range of the disposition inside its
register (`openflow.APDispositionMarkRange`), as (offset, width). -/
def APDispositionMarkRange : Nat × Nat := (11, 2)

/-- Modelled from the spec: the register holding the conjunction ID on the
not-allow path (`openflow.CNPNotAllowConjIDReg`). -/
def CNPNotAllowConjIDReg : Nat := 3

/-- Modelled from the spec: the register holding the conjunction ID for
allowed egress traffic (`openflow.EgressReg`). -/
def EgressReg : Nat := 5

/-- Modelled from the spec: the register holding the conjunction ID for
allowed ingress traffic (`openflow.IngressReg`). -/
def IngressReg : Nat := 6

/-- Embeds `getMatch`: pick the match field holding the conjunction ID, from
`CNPNotAllowConjIDReg` when the disposition is not Allow, otherwise from the
egress register when the packet's table is one of the egress rule tables
(`GetAntreaPolicyEgressTables()` plus `EgressRuleTable`, the list
`egressTables`), or from the ingress register when it is one of the ingress
rule tables (`ingressTables`). -/
def getMatch (matchers : Matchers) (egressTables ingressTables : List Nat)
    (tableID : Nat) (disposition : Nat) : Option Nat :=
  if disposition ≠ DispositionAllow then
    getMatchRegField matchers CNPNotAllowConjIDReg
  else if egressTables.contains tableID then
    getMatchRegField matchers EgressReg
  else if ingressTables.contains tableID then
    getMatchRegField matchers IngressReg
  else none

/-- Modelled from the spec: `opsv1alpha1.ProtocolsToString`, the fixed IP
protocol number → name map used for the audit log's protocol field (the
`pkg/apis/ops` definitions are not part of the sources). -/
def protocolsToString (protocol : Nat) : String :=
  if protocol = 1 then "ICMP"
  else if protocol = 6 then "TCP"
  else if protocol = 17 then "UDP"
  else if protocol = 132 then "SCTP"
  else ""

/-- Embeds the `logInfo` struct: the audit-log fields of one packet-in
logging event, zero-valued on creation (`new(logInfo)`). -/
structure logInfo where
  tableName : String := ""
  npRef : String := ""
  disposition : String := ""
  ofPriority : String := ""
  srcIP : String := ""
  destIP : String := ""
  pktLength : Nat := 0
  protocolStr : String := ""
  deriving DecidableEq

/-- The controller facilities `getNetworkPolicyInfo` consults: the flow-table
name map (`openflow.GetFlowTableName`), the disposition value → string map
(`openflow.DispositionToString`), and the openflow client's conjunction-ID
index (`GetPolicyInfoFromConjunction`, returning policy reference and
openflow priority). -/
structure LogController where
  getFlowTableName : Nat → String
  dispositionToString : Nat → String
  getPolicyInfoFromConjunction : Nat → String × String
  egressTables : List Nat
  ingressTables : List Nat

/-- The decoded IPv4 header fields `getPacketInfo` reads. -/
structure IPv4Fields where
  nwSrc : String
  nwDst : String
  length : Nat
  protocol : Nat
  deriving DecidableEq

/-- The payload of a packet-in as `getPacketInfo` distinguishes it: an IPv4
packet, an IPv4 Ethertype whose payload fails the `*protocol.IPv4` type
assertion, or a non-IPv4 Ethertype (left unparsed by the source). -/
inductive PacketEth
  | ipv4 (fields : IPv4Fields)
  | ipv4Invalid
  | nonIPv4
  deriving DecidableEq

/-- The packet-in event as the logging path sees it: the OVS match list, the
table the packet arrived from, and the embedded payload. -/
structure LogPacketIn where
  matchers : Matchers
  tableId : Nat
  eth : PacketEth

/-- Embeds `getNetworkPolicyInfo`: fill tableName, disposition, npRef and
ofPriority of the logInfo from the packet's table ID and registers, resolving
the conjunction ID through the register `getMatch` selects. -/
def getNetworkPolicyInfo (c : LogController) (p : LogPacketIn)
    (ob : logInfo) : Except String logInfo :=
  let tableName := c.getFlowTableName p.tableId
  match getInfoInReg (getMatchRegField p.matchers DispositionMarkReg)
      (some APDispositionMarkRange) with
  | .error e =>
    .error ("received error while unloading disposition from reg: " ++ e)
  | .ok info =>
    let disposition := c.dispositionToString info
    match getInfoInReg
        (getMatch p.matchers c.egressTables c.ingressTables p.tableId info)
        none with
    | .error e =>
      .error ("received error while unloading conjunction id from reg: " ++ e)
    | .ok conjId =>
      let policyInfo := c.getPolicyInfoFromConjunction conjId
      .ok { ob with
              tableName := tableName
              disposition := disposition
              npRef := policyInfo.1
              ofPriority := policyInfo.2 }

/-- Embeds `getPacketInfo`: fill srcIP, destIP, pktLength and protocolStr from
the embedded IPv4 payload; fail on an invalid IPv4 payload; leave the fields
untouched for non-IPv4 Ethertypes. -/
def getPacketInfo (p : LogPacketIn) (ob : logInfo) : Except String logInfo :=
  match p.eth with
  | .ipv4 f =>
    .ok { ob with
            srcIP := f.nwSrc
            destIP := f.nwDst
            pktLength := f.length
            protocolStr := protocolsToString f.protocol }
  | .ipv4Invalid => .error "invalid IPv4 packet"
  | .nonIPv4 => .ok ob

/-- The audit-log line `logPacket` emits, exactly the source's
`Printf("%s %s %s %s SRC: %s DEST: %s %d %s", ...)` field order. -/
def formatLogLine (ob : logInfo) : String :=
  ob.tableName ++ " " ++ ob.npRef ++ " " ++ ob.disposition ++ " " ++
    ob.ofPriority ++ " SRC: " ++ ob.srcIP ++ " DEST: " ++ ob.destIP ++ " " ++
    toString ob.pktLength ++ " " ++ ob.protocolStr

/-- Embeds `Controller.logPacket`: build the logInfo through
`getNetworkPolicyInfo` then `getPacketInfo`, and on success emit exactly one
formatted line to the audit logger (returned here as the list of lines the
call appends to the log). -/
def logPacket (c : LogController) (p : LogPacketIn) :
    Except String (List String) :=
  match getNetworkPolicyInfo c p {} with
  | .error e =>
    .error ("received error while retrieving NetworkPolicy info: " ++ e)
  | .ok ob1 =>
    match getPacketInfo p ob1 with
    | .error e =>
      .error ("received error while handling packetin for NetworkPolicy: " ++ e)
    | .ok ob => .ok [formatLogLine ob]

/-! ## Network-policy query handler (`HandleFunc`) -/

/-- Embeds `cpv1beta1.NetworkPolicyQueryFilter` (the `namespace` field is
`nspace` here, `namespace` being reserved in Lean).  The source type is a
string shorthand mapped through `mapToNetworkPolicyType`. -/
structure NetworkPolicyQueryFilter where
  name : String
  nspace : String
  pod : String
  sourceType : Nat
  deriving DecidableEq

/-- The agent querier `HandleFunc` consults, reduced to the three calls the
handler makes: the interface store's `GetContainerInterfacesByPod` and the
network-policy querier's `GetAppliedNetworkPolicies` / `GetNetworkPolicies`.
Interfaces and policies are abstracted as opaque identifiers. -/
structure AgentQuerier where
  getContainerInterfacesByPod : String → String → List Nat
  getAppliedNetworkPolicies :
    String → String → NetworkPolicyQueryFilter → List Nat
  getNetworkPolicies : NetworkPolicyQueryFilter → List Nat

/-- The HTTP response the handler writes: an encoded `NetworkPolicyList` or an
`http.Error` with its status code. -/
inductive HTTPResult
  | okList (items : List Nat)
  | httpError (code : Nat) (msg : String)
  deriving DecidableEq

/-- The observable outcome of one handler invocation: which querier calls were
performed and the response written. -/
structure HandlerOutcome where
  queriedInterfaces : Bool
  queriedApplied : Bool
  queriedAll : Bool
  response : HTTPResult
  deriving DecidableEq

/-- Embeds the request handler returned by `HandleFunc`: with a pod name but
no namespace, answer 400 without querying; with pod and namespace, query that
pod's interfaces and return the applied policies only when the pod has
interfaces (`nps` stays nil otherwise); with no pod, return all policies
matching the filter. -/
def HandleFunc (aq : AgentQuerier) (npFilter : NetworkPolicyQueryFilter) :
    HandlerOutcome :=
  if npFilter.pod ≠ "" then
    if npFilter.nspace = "" then
      ⟨false, false, false,
        .httpError 400 "With a pod name, namespace must be provided"⟩
    else
      let interfaces :=
        aq.getContainerInterfacesByPod npFilter.pod npFilter.nspace
      if interfaces.length > 0 then
        ⟨true, true, false,
          .okList
            (aq.getAppliedNetworkPolicies npFilter.pod npFilter.nspace
              npFilter)⟩
      else ⟨true, false, false, .okList []⟩
  else
    ⟨false, false, true, .okList (aq.getNetworkPolicies npFilter)⟩

/-! ## Connection Tracking Store and Flow Record Builder

The `flowexporter` connection store and flow-record builder themselves are not
among the sources; only their test (`TestConnectionStoreAndFlowRecords`) is.
The definitions of this section are therefore modelled from the spec (§3,
§4.3, §4.4), shaped by the types and call sequence the test exercises. -/

/-- Modelled from the spec: `flowexporter.Tuple`, the canonical 5-tuple
(addresses printed as strings, as `NewConnectionKey` compares them). -/
structure Tuple where
  sourceAddress : String
  destinationAddress : String
  protocol : Nat
  sourcePort : Nat
  destinationPort : Nat
  deriving DecidableEq

/-- Modelled from the spec: `flowexporter.Connection` — original and reply
tuples, both directions' counters, and the optionally resolved local workload
identity (the spec's timestamps carry no content the properties below need
and are omitted). -/
structure Connection where
  originalPackets : Nat
  originalBytes : Nat
  reversePackets : Nat
  reverseBytes : Nat
  tupleOrig : Tuple
  tupleReply : Tuple
  sourcePodName : String := ""
  sourcePodNamespace : String := ""
  destinationPodName : String := ""
  destinationPodNamespace : String := ""
  deriving DecidableEq

/-- Modelled from the spec: `flowexporter.ConnectionKey`, derived
deterministically from a Connection's original-direction tuple. -/
abbrev ConnectionKey : Type := Tuple

/-- Modelled from the spec: `flowexporter.NewConnectionKey`. -/
def NewConnectionKey (conn : Connection) : ConnectionKey :=
  conn.tupleOrig

/-- Modelled from the spec: `flowexporter.FlowRecord` — a Connection plus
export bookkeeping ("is newly observed since last export"). -/
structure FlowRecord where
  conn : Connection
  isNew : Bool
  deriving DecidableEq

/-- The Connection Tracking Store's keyed table of active connections. -/
def ConnectionStore : Type := List (ConnectionKey × Connection)

/-- The Flow Record Builder's keyed table of flow records. -/
def FlowRecordStore : Type := List (ConnectionKey × FlowRecord)

/-- Keyed point lookup shared by both stores. -/
def lookupByKey {α : Type} : List (ConnectionKey × α) → ConnectionKey →
    Option α
  | [], _ => none
  | (k, v) :: rest, key => if k = key then some v else lookupByKey rest key

/-- Modelled from the spec: `GetConnByKey`, the store's point lookup
(`found = false` is `none`). -/
def GetConnByKey (store : ConnectionStore) (key : ConnectionKey) :
    Option Connection :=
  lookupByKey store key

/-- Modelled from the spec: `FlushConnectionStore` clears all entries. -/
def FlushConnectionStore (_store : ConnectionStore) : ConnectionStore :=
  ([] : List (ConnectionKey × Connection))

/-- Create-or-refresh of one flow record, keyed by connection key. -/
def updateFlowRecord (records : FlowRecordStore) (key : ConnectionKey)
    (record : FlowRecord) : FlowRecordStore :=
  match records with
  | [] => [(key, record)]
  | (k, r) :: rest =>
    if k = key then (key, record) :: rest
    else (k, r) :: updateFlowRecord rest key record

/-- Modelled from the spec: `BuildFlowRecords` takes a read-only pass over the
Connection Tracking Store, producing or refreshing one FlowRecord per key
currently present, and never deletes a record whose Connection has since been
flushed (the test asserts records survive even the build that follows a
flush). -/
def BuildFlowRecords (store : ConnectionStore) (records : FlowRecordStore) :
    FlowRecordStore :=
  match store with
  | [] => records
  | (key, conn) :: rest =>
    BuildFlowRecords rest (updateFlowRecord records key ⟨conn, true⟩)

/-- Modelled from the spec: `GetFlowRecordByConnKey`, the record point
lookup. -/
def GetFlowRecordByConnKey (records : FlowRecordStore)
    (key : ConnectionKey) : Option FlowRecord :=
  lookupByKey records key

/-! ## Theorems -/

/-- Claim C9: `HandlePacketIn` rejects packet-in events that carry no
payload: it returns an error and invokes neither the logging nor the reject
handler. -/
theorem handlePacketIn_rejects_empty_packetin
    (logPacketResult rejectRequestResult : Except String Unit) :
    HandlePacketIn logPacketResult rejectRequestResult none =
      ⟨false, false, .error "empty packetin for Antrea Policy"⟩ :=
  rfl

/-- Claim C1 (counterexample): on a packet-in whose custom-reason bitmask has
both the logging bit and the reject bit set, a failing logging handler does
suppress the reject handler — `HandlePacketIn` returns the logging error
without invoking `rejectRequest`, contradicting the claim that both handlers
are invoked regardless of the other's error result. -/
theorem handlePacketIn_logging_failure_suppresses_reject_cex :
    getInfoInReg
        (getMatchRegField
          (fun regNum =>
            if regNum = CustomReasonMarkReg then some (3 <<< 24) else none)
          CustomReasonMarkReg)
        (some CustomReasonMarkRange) = .ok 3 ∧
      3 &&& CustomReasonLogging = CustomReasonLogging ∧
      3 &&& CustomReasonReject = CustomReasonReject ∧
      (HandlePacketIn (.error "failed to log") (.ok ())
          (some ⟨fun regNum =>
            if regNum = CustomReasonMarkReg then some (3 <<< 24)
            else none⟩)).invokedReject = false :=
  ⟨rfl, rfl, rfl, rfl⟩

/-- Claim C1 (amended): on a packet-in whose custom-reason bitmask has both
the logging bit and the reject bit set, the logging handler is always
invoked — so a reject failure can never suppress it — but the reject handler
is invoked exactly when the logging handler succeeds: a logging failure makes
`HandlePacketIn` return that error before reaching the reject handler. -/
theorem handlePacketIn_logging_then_reject
    (logPacketResult rejectRequestResult : Except String Unit)
    (p : PacketIn) (customReasons : Nat)
    (hcr : getInfoInReg (getMatchRegField p.matchers CustomReasonMarkReg)
      (some CustomReasonMarkRange) = .ok customReasons)
    (hlog : customReasons &&& CustomReasonLogging = CustomReasonLogging)
    (hrej : customReasons &&& CustomReasonReject = CustomReasonReject) :
    (HandlePacketIn logPacketResult rejectRequestResult
        (some p)).invokedLog = true ∧
      ((HandlePacketIn logPacketResult rejectRequestResult
          (some p)).invokedReject = true ↔
        ∃ u, logPacketResult = .ok u) := by
  unfold HandlePacketIn
  dsimp only
  rw [hcr]
  dsimp only
  rw [if_pos hlog]
  cases logPacketResult with
  | error e => simp
  | ok u =>
    rw [if_pos hrej]
    cases rejectRequestResult with
    | error e => simp
    | ok u => simp

/-- Witness for the amended claim C1, at a packet whose custom-reason bitmask
is 3 (both bits set) and a succeeding logging handler. -/
theorem handlePacketIn_logging_then_reject_witness :
    (HandlePacketIn (.ok ()) (.ok ())
        (some ⟨fun regNum =>
          if regNum = CustomReasonMarkReg then some (3 <<< 24)
          else none⟩)).invokedLog = true ∧
      ((HandlePacketIn (.ok ()) (.ok ())
          (some ⟨fun regNum =>
            if regNum = CustomReasonMarkReg then some (3 <<< 24)
            else none⟩)).invokedReject = true ↔
        ∃ u, (Except.ok () : Except String Unit) = .ok u) :=
  handlePacketIn_logging_then_reject (.ok ()) (.ok ()) _ 3 rfl rfl rfl

/-- Claim C2: for an intercepted TCP segment with source port `P_s`,
destination port `P_d` and sequence number `S`, the synthesized reject
response carries source port `P_d`, destination port `P_s`, and an
acknowledgment number `S + 1` (32-bit arithmetic; the hypothesis
`S + 1 < 2 ^ 32` states the non-wrapping reading of `S + 1`). -/
theorem rejectRequest_tcp_swaps_ports_and_acks_seq
    (ifaceStore : IfaceStore) (p : IPPacketIn) (tcpIn : TCPHeader)
    (hprot : (rejectHeaderFields p).prot = TypeTCP)
    (hsrc : (ifaceStore (rejectHeaderFields p).srcIP).isSome = true)
    (hdst : (ifaceStore (rejectHeaderFields p).dstIP).isSome = true)
    (htcp : p.tcpPayload = some tcpIn)
    (hseq : tcpIn.seqNum + 1 < 2 ^ 32) :
    ∃ builder, rejectRequest ifaceStore p =
      .ok (.tcpReject builder tcpIn.portDst tcpIn.portSrc 0
        (tcpIn.seqNum + 1)) := by
  obtain ⟨sPort, hsPort⟩ := Option.isSome_iff_exists.mp hsrc
  obtain ⟨dPort, hdPort⟩ := Option.isSome_iff_exists.mp hdst
  refine ⟨⟨p.hwDst, p.hwSrc, (rejectHeaderFields p).srcIP,
    (rejectHeaderFields p).dstIP, sPort, dPort⟩, ?_⟩
  simp [rejectRequest, getBasePacketOutBuilder, getTCPHeaderData, hsPort,
    hdPort, htcp, hprot, Nat.mod_eq_of_lt hseq]
  omega

/-- Witness for claim C2 at a concrete IPv4 TCP segment (ports 80 → 12345,
sequence number 1000). -/
theorem rejectRequest_tcp_swaps_ports_and_acks_seq_witness :
    ∃ builder,
      rejectRequest (fun _ => some 8)
        ⟨"aa:bb:cc:dd:ee:01", "aa:bb:cc:dd:ee:02", .ipv4, "10.0.0.1",
          "10.0.0.2", 6, [], some ⟨80, 12345, 1000⟩⟩ =
      .ok (.tcpReject builder 12345 80 0 1001) :=
  rejectRequest_tcp_swaps_ports_and_acks_seq (fun _ => some 8) _ ⟨80, 12345, 1000⟩
    rfl rfl rfl rfl (by norm_num)

/-- Claim C3: for an intercepted non-TCP IP packet, the synthesized ICMP
payload is the 4-byte zeroed unused header followed by the first
`ipHdrLen + 8` bytes of the marshalled IP packet (the IP header plus the
first 8 payload bytes), for a total length of `4 + ipHdrLen + 8` bytes. -/
theorem rejectRequest_icmp_payload_shape
    (ifaceStore : IfaceStore) (p : IPPacketIn)
    (_heth : p.etherType ≠ .other)
    (hprot : (rejectHeaderFields p).prot ≠ TypeTCP)
    (hsrc : (ifaceStore (rejectHeaderFields p).srcIP).isSome = true)
    (hdst : (ifaceStore (rejectHeaderFields p).dstIP).isSome = true)
    (hlen : (rejectHeaderFields p).ipHdrLen + 8 ≤ p.marshaled.length) :
    ∃ builder, rejectRequest ifaceStore p =
      .ok (.icmpReject builder
        (List.replicate ICMPUnusedHdrLen 0 ++
          p.marshaled.take ((rejectHeaderFields p).ipHdrLen + 8))) ∧
      (List.replicate ICMPUnusedHdrLen 0 ++
          p.marshaled.take ((rejectHeaderFields p).ipHdrLen + 8)).length =
        ICMPUnusedHdrLen + (rejectHeaderFields p).ipHdrLen + 8 := by
  obtain ⟨sPort, hsPort⟩ := Option.isSome_iff_exists.mp hsrc
  obtain ⟨dPort, hdPort⟩ := Option.isSome_iff_exists.mp hdst
  refine ⟨⟨p.hwDst, p.hwSrc, (rejectHeaderFields p).srcIP,
    (rejectHeaderFields p).dstIP, sPort, dPort⟩, ?_, ?_⟩
  · simp [rejectRequest, getBasePacketOutBuilder, icmpRejectData, hsPort,
      hdPort, hprot, hlen]
  · rw [List.length_append, List.length_replicate, List.length_take,
      Nat.min_eq_left hlen]
    omega

/-- Witness for claim C3 at a concrete IPv4 UDP packet whose marshalled form
is 30 bytes long: the ICMP payload has `4 + 20 + 8 = 32` bytes. -/
theorem rejectRequest_icmp_payload_shape_witness :
    ∃ builder,
      rejectRequest (fun _ => some 8)
        ⟨"aa:bb:cc:dd:ee:01", "aa:bb:cc:dd:ee:02", .ipv4, "10.0.0.1",
          "10.0.0.2", 17, List.replicate 30 7, none⟩ =
      .ok (.icmpReject builder
        (List.replicate ICMPUnusedHdrLen 0 ++
          (List.replicate 30 7).take (IPv4HdrLen + 8))) ∧
      (List.replicate ICMPUnusedHdrLen 0 ++
          (List.replicate 30 7).take (IPv4HdrLen + 8)).length =
        ICMPUnusedHdrLen + IPv4HdrLen + 8 :=
  rejectRequest_icmp_payload_shape (fun _ => some 8)
    ⟨"aa:bb:cc:dd:ee:01", "aa:bb:cc:dd:ee:02", .ipv4, "10.0.0.1",
      "10.0.0.2", 17, List.replicate 30 7, none⟩
    (by decide) (by decide) rfl rfl (by simp [rejectHeaderFields, IPv4HdrLen])

/-- A missed interface-store lookup for either endpoint makes `rejectRequest`
fail with the lookup error (helper for the claim C5 theorem). -/
theorem rejectRequest_lookup_miss (ifaceStore : IfaceStore) (p : IPPacketIn)
    (h : ifaceStore (rejectHeaderFields p).srcIP = none ∨
      ifaceStore (rejectHeaderFields p).dstIP = none) :
    rejectRequest ifaceStore p = .error "couldn't find Pod config by IP" := by
  rcases hs : ifaceStore (rejectHeaderFields p).srcIP with _ | sPort
  · simp [rejectRequest, getBasePacketOutBuilder, hs]
  · rcases hd : ifaceStore (rejectHeaderFields p).dstIP with _ | dPort
    · simp [rejectRequest, getBasePacketOutBuilder, hs, hd]
    · rcases h with h | h
      · rw [hs] at h
        cases h
      · rw [hd] at h
        cases h

/-- Claim C5: reject synthesis fails, sending nothing, whenever the interface
store lookup by IP misses for either endpoint of the intercepted packet, and
a packet-out is produced only when both lookups succeed. -/
theorem rejectRequest_requires_iface_lookups
    (ifaceStore : IfaceStore) (p : IPPacketIn) :
    ((ifaceStore (rejectHeaderFields p).srcIP = none ∨
        ifaceStore (rejectHeaderFields p).dstIP = none) →
      rejectRequest ifaceStore p = .error "couldn't find Pod config by IP") ∧
    (∀ sent, rejectRequest ifaceStore p = .ok sent →
      (ifaceStore (rejectHeaderFields p).srcIP).isSome = true ∧
      (ifaceStore (rejectHeaderFields p).dstIP).isSome = true) := by
  refine ⟨rejectRequest_lookup_miss ifaceStore p, ?_⟩
  intro sent hsent
  constructor
  · rcases hs : ifaceStore (rejectHeaderFields p).srcIP with _ | sPort
    · rw [rejectRequest_lookup_miss ifaceStore p (Or.inl hs)] at hsent
      cases hsent
    · rfl
  · rcases hd : ifaceStore (rejectHeaderFields p).dstIP with _ | dPort
    · rw [rejectRequest_lookup_miss ifaceStore p (Or.inr hd)] at hsent
      cases hsent
    · rfl

/-- Witness for claim C5 at an interface store that resolves no IP: reject
synthesis fails with the lookup error. -/
theorem rejectRequest_requires_iface_lookups_witness :
    rejectRequest (fun _ => none)
      ⟨"aa:bb:cc:dd:ee:01", "aa:bb:cc:dd:ee:02", .ipv4, "10.0.0.1",
        "10.0.0.2", 6, [], none⟩ = .error "couldn't find Pod config by IP" :=
  (rejectRequest_requires_iface_lookups (fun _ => none)
      ⟨"aa:bb:cc:dd:ee:01", "aa:bb:cc:dd:ee:02", .ipv4, "10.0.0.1",
        "10.0.0.2", 6, [], none⟩).1 (Or.inl rfl)

/-- Claim C6: the register holding the conjunction ID is selected by
disposition and table placement — the not-allow register when the decoded
disposition is not Allow; otherwise the egress register when the packet's
table is an egress rule table, and the ingress register when it is an ingress
rule table (and not an egress one; the real table sets are disjoint). -/
theorem getMatch_register_routing (matchers : Matchers)
    (egressTables ingressTables : List Nat) (tableID disposition : Nat) :
    (disposition ≠ DispositionAllow →
      getMatch matchers egressTables ingressTables tableID disposition =
        getMatchRegField matchers CNPNotAllowConjIDReg) ∧
    (disposition = DispositionAllow →
      egressTables.contains tableID = true →
      getMatch matchers egressTables ingressTables tableID disposition =
        getMatchRegField matchers EgressReg) ∧
    (disposition = DispositionAllow →
      egressTables.contains tableID = false →
      ingressTables.contains tableID = true →
      getMatch matchers egressTables ingressTables tableID disposition =
        getMatchRegField matchers IngressReg) := by
  refine ⟨fun hd => ?_, fun hd heg => ?_, fun hd heg hing => ?_⟩
  · simp [getMatch, hd]
  · have heg' : tableID ∈ egressTables := by simpa using heg
    simp [getMatch, hd, heg']
  · have heg' : tableID ∉ egressTables := by simpa using heg
    have hing' : tableID ∈ ingressTables := by simpa using hing
    simp [getMatch, hd, heg', hing']

/-- Witness for claim C6, covering all three routing cases against a matcher
map holding a distinct value in each conjunction-ID register, with table 2
egress and table 4 ingress. -/
theorem getMatch_register_routing_witness :
    getMatch
        (fun regNum =>
          if regNum = CNPNotAllowConjIDReg then some 77
          else if regNum = EgressReg then some 55
          else if regNum = IngressReg then some 66 else none)
        [2] [4] 9 0 = some 77 ∧
      getMatch
        (fun regNum =>
          if regNum = CNPNotAllowConjIDReg then some 77
          else if regNum = EgressReg then some 55
          else if regNum = IngressReg then some 66 else none)
        [2] [4] 2 DispositionAllow = some 55 ∧
      getMatch
        (fun regNum =>
          if regNum = CNPNotAllowConjIDReg then some 77
          else if regNum = EgressReg then some 55
          else if regNum = IngressReg then some 66 else none)
        [2] [4] 4 DispositionAllow = some 66 :=
  ⟨((getMatch_register_routing _ [2] [4] 9 0).1 (by decide)).trans rfl,
    ((getMatch_register_routing _ [2] [4] 2 DispositionAllow).2.1 rfl
      (by decide)).trans rfl,
    ((getMatch_register_routing _ [2] [4] 4 DispositionAllow).2.2 rfl
      (by decide) (by decide)).trans rfl⟩

/-- Claim C7: a packet-in logging event that succeeds emits exactly one audit
log line, whose whitespace-separated fields are, in order: table name, policy
reference, disposition, priority, "SRC:" with the source IP, "DEST:" with the
destination IP, packet length, protocol name. -/
theorem logPacket_emits_one_formatted_line (c : LogController)
    (p : LogPacketIn) (ob1 ob : logInfo)
    (h1 : getNetworkPolicyInfo c p {} = .ok ob1)
    (h2 : getPacketInfo p ob1 = .ok ob) :
    logPacket c p =
      .ok [ob.tableName ++ " " ++ ob.npRef ++ " " ++ ob.disposition ++ " " ++
        ob.ofPriority ++ " SRC: " ++ ob.srcIP ++ " DEST: " ++ ob.destIP ++
        " " ++ toString ob.pktLength ++ " " ++ ob.protocolStr] ∧
      ∀ lines, logPacket c p = .ok lines → lines.length = 1 := by
  constructor
  · simp [logPacket, h1, h2, formatLogLine]
  · intro lines hlines
    rw [logPacket] at hlines
    rw [h1] at hlines
    dsimp only at hlines
    rw [h2] at hlines
    cases hlines
    rfl

/-- Witness for claim C7 at a concrete allowed ingress UDP packet. -/
theorem logPacket_emits_one_formatted_line_witness :
    logPacket
        ⟨fun _ => "IngressRule",
          fun d => if d = DispositionAllow then "Allow" else "Drop",
          fun _ => ("np1", "100"), [2], [4]⟩
        ⟨fun regNum =>
          if regNum = DispositionMarkReg then some (DispositionAllow <<< 11)
          else if regNum = IngressReg then some 9 else none,
          4, .ipv4 ⟨"1.2.3.4", "5.6.7.8", 60, 17⟩⟩ =
      .ok ["IngressRule np1 Allow 100 SRC: 1.2.3.4 DEST: 5.6.7.8 60 UDP"] := by
  have h :=
    (logPacket_emits_one_formatted_line
      ⟨fun _ => "IngressRule",
        fun d => if d = DispositionAllow then "Allow" else "Drop",
        fun _ => ("np1", "100"), [2], [4]⟩
      ⟨fun regNum =>
        if regNum = DispositionMarkReg then some (DispositionAllow <<< 11)
        else if regNum = IngressReg then some 9 else none,
        4, .ipv4 ⟨"1.2.3.4", "5.6.7.8", 60, 17⟩⟩
      _ _ rfl rfl).1
  exact h

/-- Claim C8: with an empty pod filter the handler returns all policies
matching the filter; with pod and namespace both given it returns only the
policies applied to that pod's interfaces, and an empty result when the pod
has no known interfaces. -/
theorem handleFunc_filter_routing (aq : AgentQuerier)
    (npFilter : NetworkPolicyQueryFilter) :
    (npFilter.pod = "" →
      HandleFunc aq npFilter =
        ⟨false, false, true, .okList (aq.getNetworkPolicies npFilter)⟩) ∧
    (npFilter.pod ≠ "" → npFilter.nspace ≠ "" →
      (aq.getContainerInterfacesByPod npFilter.pod npFilter.nspace ≠ [] →
        HandleFunc aq npFilter =
          ⟨true, true, false,
            .okList (aq.getAppliedNetworkPolicies npFilter.pod
              npFilter.nspace npFilter)⟩) ∧
      (aq.getContainerInterfacesByPod npFilter.pod npFilter.nspace = [] →
        HandleFunc aq npFilter = ⟨true, false, false, .okList []⟩)) := by
  refine ⟨fun hpod => ?_, fun hpod hns => ⟨fun hifs => ?_, fun hifs => ?_⟩⟩
  · simp [HandleFunc, hpod]
  · have hlen : 0 <
        (aq.getContainerInterfacesByPod npFilter.pod npFilter.nspace).length :=
      List.length_pos.mpr hifs
    simp [HandleFunc, hpod, hns, hlen]
  · simp [HandleFunc, hpod, hns, hifs]

/-- Witness for claim C8, covering the three routing cases: no pod filter,
pod with interfaces, pod without interfaces. -/
theorem handleFunc_filter_routing_witness :
    HandleFunc
        ⟨fun pod _ => if pod = "podA" then [3] else [],
          fun _ _ _ => [21], fun _ => [11, 12]⟩
        ⟨"", "", "", 0⟩ =
      ⟨false, false, true, .okList [11, 12]⟩ ∧
      HandleFunc
        ⟨fun pod _ => if pod = "podA" then [3] else [],
          fun _ _ _ => [21], fun _ => [11, 12]⟩
        ⟨"", "ns1", "podA", 0⟩ =
      ⟨true, true, false, .okList [21]⟩ ∧
      HandleFunc
        ⟨fun pod _ => if pod = "podA" then [3] else [],
          fun _ _ _ => [21], fun _ => [11, 12]⟩
        ⟨"", "ns1", "podB", 0⟩ =
      ⟨true, false, false, .okList []⟩ :=
  ⟨(handleFunc_filter_routing _ ⟨"", "", "", 0⟩).1 rfl,
    ((handleFunc_filter_routing _ ⟨"", "ns1", "podA", 0⟩).2 (by decide)
      (by decide)).1 (by decide),
    ((handleFunc_filter_routing _ ⟨"", "ns1", "podB", 0⟩).2 (by decide)
      (by decide)).2 (by decide)⟩

/-- Claim C10: a filter with a pod name but no namespace is answered with an
HTTP 400 error, and no interface or policy query is performed. -/
theorem handleFunc_pod_without_namespace
    (aq : AgentQuerier) (npFilter : NetworkPolicyQueryFilter)
    (hpod : npFilter.pod ≠ "") (hns : npFilter.nspace = "") :
    HandleFunc aq npFilter =
      ⟨false, false, false,
        .httpError 400 "With a pod name, namespace must be provided"⟩ := by
  simp [HandleFunc, hpod, hns]

/-- Witness for claim C10 at a filter naming a pod without a namespace. -/
theorem handleFunc_pod_without_namespace_witness :
    HandleFunc
        ⟨fun _ _ => [3], fun _ _ _ => [21], fun _ => [11, 12]⟩
        ⟨"", "", "podA", 0⟩ =
      ⟨false, false, false,
        .httpError 400 "With a pod name, namespace must be provided"⟩ :=
  handleFunc_pod_without_namespace _ ⟨"", "", "podA", 0⟩ (by decide) rfl

/-- A refreshed record is retrievable under its key (helper for C4). -/
theorem lookupByKey_updateFlowRecord_self (records : FlowRecordStore)
    (key : ConnectionKey) (record : FlowRecord) :
    lookupByKey (updateFlowRecord records key record) key = some record := by
  induction records with
  | nil => simp [updateFlowRecord, lookupByKey]
  | cons head rest ih =>
    obtain ⟨k, r⟩ := head
    by_cases hk : k = key <;> simp [updateFlowRecord, lookupByKey, hk, ih]

/-- Refreshing one record never drops another (helper for C4). -/
theorem lookupByKey_updateFlowRecord_isSome (records : FlowRecordStore)
    (key target : ConnectionKey) (record : FlowRecord)
    (h : (lookupByKey records target).isSome = true) :
    (lookupByKey (updateFlowRecord records key record) target).isSome =
      true := by
  induction records with
  | nil => simp [lookupByKey] at h
  | cons head rest ih =>
    obtain ⟨k, r⟩ := head
    by_cases hk : k = key
    · subst hk
      by_cases ht : k = target <;>
        simp_all [updateFlowRecord, lookupByKey]
    · by_cases ht : k = target <;>
        simp_all [updateFlowRecord, lookupByKey]

/-- `BuildFlowRecords` keeps every record already present (helper for C4). -/
theorem buildFlowRecords_preserves (store : ConnectionStore)
    (records : FlowRecordStore) (key : ConnectionKey)
    (h : (lookupByKey records key).isSome = true) :
    (lookupByKey (BuildFlowRecords store records) key).isSome = true := by
  induction store generalizing records with
  | nil => exact h
  | cons head rest ih =>
    obtain ⟨k, conn⟩ := head
    exact ih _ (lookupByKey_updateFlowRecord_isSome records k key ⟨conn, true⟩ h)

/-- `BuildFlowRecords` produces a record for every key of the store
(helper for C4). -/
theorem buildFlowRecords_covers_store (store : ConnectionStore)
    (records : FlowRecordStore) (key : ConnectionKey)
    (h : (lookupByKey store key).isSome = true) :
    (lookupByKey (BuildFlowRecords store records) key).isSome = true := by
  induction store generalizing records with
  | nil => simp [lookupByKey] at h
  | cons head rest ih =>
    obtain ⟨k, conn⟩ := head
    by_cases hk : k = key
    · subst hk
      exact buildFlowRecords_preserves rest _ k
        (by rw [lookupByKey_updateFlowRecord_self]; rfl)
    · rw [lookupByKey, if_neg hk] at h
      exact ih _ h

/-- Claim C4: after `FlushConnectionStore`, `GetConnByKey` finds none of the
keys previously present, while the flow records built from the store before
the flush still hold a retrievable record for every such key until the next
`BuildFlowRecords` call — flushing the connection store and rebuilding flow
records are independent operations. -/
theorem flush_rebuild_decoupling (store : ConnectionStore)
    (records : FlowRecordStore) (key : ConnectionKey)
    (h : (GetConnByKey store key).isSome = true) :
    GetConnByKey (FlushConnectionStore store) key = none ∧
    (GetFlowRecordByConnKey (BuildFlowRecords store records) key).isSome =
      true :=
  ⟨rfl, buildFlowRecords_covers_store store records key h⟩

/-- Witness for claim C4 at the test's flow-1 connection (1.2.3.4 → 4.3.2.1,
TCP 65280 → 255), starting from an empty record table. -/
theorem flush_rebuild_decoupling_witness :
    GetConnByKey
        (FlushConnectionStore
          [(⟨"1.2.3.4", "4.3.2.1", 6, 65280, 255⟩,
            ⟨65535, 1340000, 255, 47786, ⟨"1.2.3.4", "4.3.2.1", 6, 65280, 255⟩,
              ⟨"4.3.2.1", "1.2.3.4", 6, 255, 65280⟩, "pod1", "ns1", "", ""⟩)])
        ⟨"1.2.3.4", "4.3.2.1", 6, 65280, 255⟩ = none ∧
      (GetFlowRecordByConnKey
        (BuildFlowRecords
          [(⟨"1.2.3.4", "4.3.2.1", 6, 65280, 255⟩,
            ⟨65535, 1340000, 255, 47786, ⟨"1.2.3.4", "4.3.2.1", 6, 65280, 255⟩,
              ⟨"4.3.2.1", "1.2.3.4", 6, 255, 65280⟩, "pod1", "ns1", "", ""⟩)]
          [])
        ⟨"1.2.3.4", "4.3.2.1", 6, 65280, 255⟩).isSome = true :=
  flush_rebuild_decoupling
    [(⟨"1.2.3.4", "4.3.2.1", 6, 65280, 255⟩,
      ⟨65535, 1340000, 255, 47786, ⟨"1.2.3.4", "4.3.2.1", 6, 65280, 255⟩,
        ⟨"4.3.2.1", "1.2.3.4", 6, 255, 65280⟩, "pod1", "ns1", "", ""⟩)]
    [] ⟨"1.2.3.4", "4.3.2.1", 6, 65280, 255⟩ (by decide)

end AntreaCore
